import Mathlib

/-!
Verification of the bursa_tracker monitoring-and-alert engine.

Frontend code under src/ (StockCard, Dashboard, utils.js) is embedded
directly. The backend engine (Threshold Evaluator, Alert State Tracker,
Notification Dispatcher, History Store, Monitor Scheduler) is not present
under src/; those parts are modelled from the specification, as marked on
each definition. Prices are rationals; times are integers in abstract units.
-/

namespace BursaTracker

/-- A stock row as served by GET /api/stocks and consumed by StockCard
(src/frontend/src/components/ui/input.jsx) and the Dashboard
(src/unnamed/part_000). -/
structure Stock where
  symbol : String
  current_price : ℚ
  threshold_up : ℚ
  threshold_down : ℚ

/-- StockCard: isAboveThreshold = current_price >= threshold_up. -/
def isAboveThreshold (s : Stock) : Bool :=
  decide (s.current_price ≥ s.threshold_up)

/-- StockCard: isBelowThreshold = current_price <= threshold_down. -/
def isBelowThreshold (s : Stock) : Bool :=
  decide (s.current_price ≤ s.threshold_down)

/-- StockCard: isInAlertZone = isAboveThreshold or isBelowThreshold. -/
def isInAlertZone (s : Stock) : Bool :=
  isAboveThreshold s || isBelowThreshold s

/-- StockCard: distanceFromUp = ((current_price - threshold_up) / threshold_up) * 100. -/
def distanceFromUp (s : Stock) : ℚ :=
  (s.current_price - s.threshold_up) / s.threshold_up * 100

/-- StockCard: distanceFromDown = ((current_price - threshold_down) / threshold_down) * 100. -/
def distanceFromDown (s : Stock) : ℚ :=
  (s.current_price - s.threshold_down) / s.threshold_down * 100

/-- Dashboard (src/unnamed/part_000): activeAlerts counts stocks whose price
is at or above the upper threshold or at or below the lower threshold. -/
def activeAlerts (stocks : List Stock) : ℕ :=
  (stocks.filter fun s =>
    decide (s.current_price ≥ s.threshold_up)
      || decide (s.current_price ≤ s.threshold_down)).length

/-- A JavaScript number-ish value as received by calculatePercentageChange
in src/frontend/src/lib/utils.js: a finite number, null, undefined, or NaN. -/
inductive JSNumber where
  | num (q : ℚ)
  | jsNull
  | jsUndefined
  | nan

/-- utils.js calculatePercentageChange: returns 0 when the previous value is
falsy (0, null, undefined, NaN), otherwise ((current - previous) / previous) * 100. -/
def calculatePercentageChange (current : ℚ) (previous : JSNumber) : ℚ :=
  match previous with
  | .num q => if q = 0 then 0 else (current - q) / q * 100
  | .jsNull => 0
  | .jsUndefined => 0
  | .nan => 0

/-- A breach direction of the Threshold Evaluator. -/
inductive Direction where
  | above
  | below
  deriving DecidableEq

/-- Modelled from the spec: the Alert State Tracker cooldown gate (the backend
service code is not under src/). A direction is eligible to fire when no Alert
Record exists for the (symbol, direction) pair, or now - lastFired is at least
the cooldown duration. -/
def isEligible (lastFired : Option ℤ) (now : ℤ) (cooldown : ℤ) : Bool :=
  match lastFired with
  | none => true
  | some t0 => decide (now - t0 ≥ cooldown)

/-- Modelled from the spec: the breach part of the Threshold Evaluator (the
backend service code is not under src/): price >= upper reports above and
price <= lower reports below, both inclusive and checked independently. -/
def breachDirections (price upper lower : ℚ) : List Direction :=
  (if price ≥ upper then [Direction.above] else [])
    ++ (if price ≤ lower then [Direction.below] else [])

/-- Modelled from the spec: evaluate reports each breached direction gated by
the cooldown record of that direction for the observed symbol; lastFiredOf is
the Alert Record lookup already keyed to the symbol. -/
def evaluate (price upper lower : ℚ) (lastFiredOf : Direction → Option ℤ)
    (now cooldown : ℤ) : List Direction :=
  (breachDirections price upper lower).filter fun d =>
    isEligible (lastFiredOf d) now cooldown

/-- Modelled from the spec: the Monitor Scheduler, mirroring the Dashboard
effect in src/unnamed/part_000 (an immediate first cycle, then setInterval
every 5 minutes until clearInterval). cycleFires interval stopTime t holds
when a cycle begins at time t: t is a multiple of the interval (the first
cycle is at t = 0) and cancellation has not yet occurred. -/
def cycleFires (interval stopTime t : ℕ) : Bool :=
  decide (t < stopTime) && decide (t % interval = 0)

/-- Dashboard refresh interval: 5 * 60 * 1000 milliseconds. -/
def defaultIntervalMs : ℕ := 5 * 60 * 1000

/-- Outcome of a single channel send attempt. -/
inductive SendOutcome where
  | ok
  | transient
  | permanent

/-- Accumulated result of a retried channel send. -/
structure RetryResult where
  delivered : ℕ
  transientFailures : ℕ
  delays : List ℕ
  attempts : ℕ

/-- Modelled from the spec: exponential backoff, base delay doubling each
retry, capped. -/
def backoffDelay (base cap k : ℕ) : ℕ :=
  min (base * 2 ^ k) cap

/-- Modelled from the spec: the per-channel retry policy of the Notification
Dispatcher (the backend service code is not under src/): up to fuel attempts,
exponential backoff between attempts, only transient errors retried, permanent
errors fail fast without retry. behavior gives the outcome of attempt k. -/
def retrySend (behavior : ℕ → SendOutcome) (base cap : ℕ) : ℕ → ℕ → RetryResult
  | 0, _ => ⟨0, 0, [], 0⟩
  | fuel + 1, k =>
    match behavior k with
    | .ok => ⟨1, 0, [], 1⟩
    | .permanent => ⟨0, 0, [], 1⟩
    | .transient =>
      if fuel = 0 then ⟨0, 1, [], 1⟩
      else
        let r := retrySend behavior base cap fuel (k + 1)
        ⟨r.delivered, r.transientFailures + 1,
          backoffDelay base cap k :: r.delays, r.attempts + 1⟩

/-- A notification channel, abstracted by the outcomes of its send attempts. -/
structure Channel where
  behavior : ℕ → SendOutcome

/-- Modelled from the spec: dispatch fans out to every configured channel
independently, and the Alert State Tracker records the fire time regardless of
the delivery results (cooldown is keyed to an attempted dispatch). Returns the
per-channel retry results and the new last-fired record. -/
def dispatchAndRecord (channels : List Channel) (base cap maxAttempts : ℕ)
    (now : ℤ) : List RetryResult × Option ℤ :=
  (channels.map fun ch => retrySend ch.behavior base cap maxAttempts 0, some now)

/-- A price observation appended to the History Store. -/
structure Observation where
  symbol : String
  price : ℚ
  timestamp : ℤ

/-- State of the History Store: the records of the active log file, the
contents of the rotated backup files, and how many rotations happened. -/
structure HistoryState where
  active : List Observation
  backups : List (List Observation)
  rotations : ℕ

/-- Size in bytes of a log file with the given records, for a record
serialization size sz and a fixed header size. -/
def logSize (sz : Observation → ℕ) (headerSize : ℕ) (l : List Observation) : ℕ :=
  headerSize + (l.map sz).sum

/-- Modelled from the spec: History Store append with size-triggered rotation
(the backend service code is not under src/): the record is appended; if the
log size then exceeds maxSize, the file is renamed to a timestamped backup and
a fresh log holding only the header becomes active. -/
def appendObs (sz : Observation → ℕ) (headerSize maxSize : ℕ)
    (st : HistoryState) (o : Observation) : HistoryState :=
  let grown := st.active ++ [o]
  if maxSize < logSize sz headerSize grown then
    ⟨[], st.backups ++ [grown], st.rotations + 1⟩
  else
    ⟨grown, st.backups, st.rotations⟩

/-- All observations ever appended and retained: rotated backups then the
active log, in order. -/
def allObservations (st : HistoryState) : List Observation :=
  st.backups.flatten ++ st.active

/-- A channel behavior that fails transiently on attempts 0 and 1 and then
succeeds. -/
def twoTransientThenOk : ℕ → SendOutcome :=
  fun k => if k < 2 then SendOutcome.transient else SendOutcome.ok

/-- An email channel whose credentials are bad: every attempt fails
permanently. -/
def emailDown : Channel :=
  ⟨fun _ => SendOutcome.permanent⟩

/-- A chat channel that delivers on the first attempt. -/
def chatUp : Channel :=
  ⟨fun _ => SendOutcome.ok⟩

/-- A sample observation already in the active log. -/
def wObs1 : Observation :=
  ⟨"5285.KL", 10, 0⟩

/-- A sample observation about to be appended. -/
def wObs2 : Observation :=
  ⟨"5285.KL", 11, 300⟩

/-- A history state holding one observation and no backups. -/
def wState : HistoryState :=
  ⟨[wObs1], [], 0⟩

/-- Claim C1: for thresholds with u > d, the breach decision is above iff the
price is at least u and below iff the price is at most d, both comparisons
inclusive, in the StockCard flags and in the evaluator breach directions. -/
theorem breach_inclusive_iff (sym : String) (p u d : ℚ) (h : d < u) :
    (isAboveThreshold ⟨sym, p, u, d⟩ = true ↔ u ≤ p)
    ∧ (isBelowThreshold ⟨sym, p, u, d⟩ = true ↔ p ≤ d)
    ∧ (Direction.above ∈ breachDirections p u d ↔ u ≤ p)
    ∧ (Direction.below ∈ breachDirections p u d ↔ p ≤ d) := by
  refine ⟨by simp [isAboveThreshold], by simp [isBelowThreshold], ?_, ?_⟩ <;>
    by_cases h1 : u ≤ p <;> by_cases h2 : p ≤ d <;>
      simp [breachDirections, h1, h2]

/-- Witness for C1 at price 5 with thresholds (5, 3): the boundary price
counts as an above breach. -/
theorem breach_inclusive_iff_witness :
    (3 : ℚ) < 5
    ∧ ((isAboveThreshold ⟨"5285.KL", 5, 5, 3⟩ = true ↔ (5 : ℚ) ≤ 5)
       ∧ (isBelowThreshold ⟨"5285.KL", 5, 5, 3⟩ = true ↔ (5 : ℚ) ≤ 3)
       ∧ (Direction.above ∈ breachDirections 5 5 3 ↔ (5 : ℚ) ≤ 5)
       ∧ (Direction.below ∈ breachDirections 5 5 3 ↔ (5 : ℚ) ≤ 3)) :=
  ⟨by norm_num, breach_inclusive_iff "5285.KL" 5 5 3 (by norm_num)⟩

/-- Claim C2: with an Alert Record fired at t0 and cooldown c, any time
strictly before t0 + c is not eligible, any time at or after t0 + c is
eligible, and a missing record is always eligible. -/
theorem cooldown_boundary (t0 c now : ℤ) :
    (now < t0 + c → isEligible (some t0) now c = false)
    ∧ (t0 + c ≤ now → isEligible (some t0) now c = true)
    ∧ isEligible none now c = true := by
  refine ⟨fun h => ?_, fun h => ?_, rfl⟩ <;> simp [isEligible] <;> omega

/-- Witness for C2 with t0 = 0 and cooldown 60: not eligible at 59, eligible
at exactly 60, and a missing record is eligible. -/
theorem cooldown_boundary_witness :
    isEligible (some 0) 59 60 = false
    ∧ isEligible (some 0) 60 60 = true
    ∧ isEligible none 60 60 = true :=
  ⟨(cooldown_boundary 0 60 59).1 (by norm_num),
   (cooldown_boundary 0 60 60).2.1 (by norm_num),
   (cooldown_boundary 0 60 60).2.2⟩

/-- Claim C3: a price simultaneously at or above the upper threshold and at or
below the lower threshold sets both StockCard flags, and the evaluator reports
each of the two directions independently, gated only by the cooldown state of
that direction. -/
theorem degenerate_both_directions (sym : String) (p u d : ℚ)
    (lastFiredOf : Direction → Option ℤ) (now c : ℤ)
    (h1 : u ≤ p) (h2 : p ≤ d) :
    isAboveThreshold ⟨sym, p, u, d⟩ = true
    ∧ isBelowThreshold ⟨sym, p, u, d⟩ = true
    ∧ (Direction.above ∈ evaluate p u d lastFiredOf now c
        ↔ isEligible (lastFiredOf Direction.above) now c = true)
    ∧ (Direction.below ∈ evaluate p u d lastFiredOf now c
        ↔ isEligible (lastFiredOf Direction.below) now c = true) := by
  refine ⟨by simp [isAboveThreshold, h1], by simp [isBelowThreshold, h2], ?_, ?_⟩ <;>
    simp [evaluate, breachDirections, h1, h2, List.mem_filter]

/-- Witness for C3 at price 5 with inverted thresholds (4, 6) and no prior
alerts: both directions are reported. -/
theorem degenerate_both_directions_witness :
    isAboveThreshold ⟨"5285.KL", 5, 4, 6⟩ = true
    ∧ isBelowThreshold ⟨"5285.KL", 5, 4, 6⟩ = true
    ∧ (Direction.above ∈ evaluate 5 4 6 (fun _ => none) 0 3600
        ↔ isEligible ((fun _ => none : Direction → Option ℤ) Direction.above) 0 3600 = true)
    ∧ (Direction.below ∈ evaluate 5 4 6 (fun _ => none) 0 3600
        ↔ isEligible ((fun _ => none : Direction → Option ℤ) Direction.below) 0 3600 = true) :=
  degenerate_both_directions "5285.KL" 5 4 6 (fun _ => none) 0 3600
    (by norm_num) (by norm_num)

/-- Claim C4: the reported percent distances follow
(price - threshold) / threshold * 100, are negative exactly when the price is
below the (positive) threshold, and the distance never changes whether a
breach or alert fires: two prices that compare the same way against the
thresholds give the same evaluator output even when their distances differ. -/
theorem percent_distance_spec (sym : String) (p u d : ℚ)
    (lastFiredOf : Direction → Option ℤ) (now c : ℤ)
    (hu : 0 < u) (hd : 0 < d) :
    distanceFromUp ⟨sym, p, u, d⟩ = (p - u) / u * 100
    ∧ distanceFromDown ⟨sym, p, u, d⟩ = (p - d) / d * 100
    ∧ (distanceFromUp ⟨sym, p, u, d⟩ < 0 ↔ p < u)
    ∧ (distanceFromDown ⟨sym, p, u, d⟩ < 0 ↔ p < d)
    ∧ (∀ p2 : ℚ, (u ≤ p ↔ u ≤ p2) → (p ≤ d ↔ p2 ≤ d) →
        evaluate p u d lastFiredOf now c = evaluate p2 u d lastFiredOf now c) := by
  have key : ∀ t : ℚ, 0 < t → ((p - t) / t * 100 < 0 ↔ p < t) := by
    intro t ht
    rw [div_mul_eq_mul_div, div_neg_iff]
    constructor
    · rintro (⟨_, h2⟩ | ⟨h1, _⟩)
      · exact absurd ht (not_lt.mpr h2.le)
      · nlinarith
    · intro hp
      right
      exact ⟨by nlinarith, ht⟩
  refine ⟨rfl, rfl, key u hu, key d hd, fun p2 hiff1 hiff2 => ?_⟩
  simp only [evaluate, breachDirections, ge_iff_le, hiff1, hiff2]

/-- Witness for C4 at price 3 with thresholds (2, 1): distance from the upper
threshold is positive, and price 4 (different distance, same comparisons)
gives the same evaluator output. -/
theorem percent_distance_spec_witness :
    distanceFromUp ⟨"5285.KL", 3, 2, 1⟩ = ((3 : ℚ) - 2) / 2 * 100
    ∧ distanceFromDown ⟨"5285.KL", 3, 2, 1⟩ = ((3 : ℚ) - 1) / 1 * 100
    ∧ (distanceFromUp ⟨"5285.KL", 3, 2, 1⟩ < 0 ↔ (3 : ℚ) < 2)
    ∧ (distanceFromDown ⟨"5285.KL", 3, 2, 1⟩ < 0 ↔ (3 : ℚ) < 1)
    ∧ evaluate 3 2 1 (fun _ => none) 0 3600 = evaluate 4 2 1 (fun _ => none) 0 3600 :=
  have h := percent_distance_spec "5285.KL" 3 2 1 (fun _ => none) 0 3600
    (by norm_num) (by norm_num)
  ⟨h.1, h.2.1, h.2.2.1, h.2.2.2.1, h.2.2.2.2 4 (by norm_num) (by norm_num)⟩

/-- Claim C5: the scheduler fires the first cycle immediately at time 0, a
fired cycle is followed by another one interval later while cancellation has
not occurred, and no cycle fires at or after the stop time. -/
theorem scheduler_cycles (i s t : ℕ) (hi : 0 < i) :
    (0 < s → cycleFires i s 0 = true)
    ∧ (cycleFires i s t = true → t + i < s → cycleFires i s (t + i) = true)
    ∧ (s ≤ t → cycleFires i s t = false) := by
  refine ⟨fun hs => ?_, fun h1 h2 => ?_, fun hst => ?_⟩
  · simp [cycleFires, hs]
  · simp only [cycleFires, Bool.and_eq_true, decide_eq_true_eq] at h1 ⊢
    exact ⟨h2, by rw [Nat.add_mod_right]; exact h1.2⟩
  · simp [cycleFires, Nat.not_lt.mpr hst]

/-- Witness for C5 at the 5-minute default interval with a stop at 600000 ms:
a cycle fires at 0 and at one interval later; none fires at the stop time. -/
theorem scheduler_cycles_witness :
    cycleFires defaultIntervalMs 600000 0 = true
    ∧ cycleFires defaultIntervalMs 600000 (0 + defaultIntervalMs) = true
    ∧ cycleFires defaultIntervalMs 600000 600000 = false :=
  ⟨(scheduler_cycles defaultIntervalMs 600000 0 (by norm_num [defaultIntervalMs])).1
      (by norm_num),
   (scheduler_cycles defaultIntervalMs 600000 0 (by norm_num [defaultIntervalMs])).2.1
      ((scheduler_cycles defaultIntervalMs 600000 0
          (by norm_num [defaultIntervalMs])).1 (by norm_num))
      (by norm_num [defaultIntervalMs]),
   (scheduler_cycles defaultIntervalMs 600000 600000
      (by norm_num [defaultIntervalMs])).2.2 (by norm_num)⟩

/-- Helper: a retried send with positive fuel performs at least one attempt. -/
theorem retrySend_attempts_pos (b : ℕ → SendOutcome) (base cap : ℕ) :
    ∀ fuel k, 0 < fuel → 1 ≤ (retrySend b base cap fuel k).attempts := by
  intro fuel k h
  cases fuel with
  | zero => omega
  | succ m =>
    cases hb : b k with
    | ok => simp [retrySend, hb]
    | permanent => simp [retrySend, hb]
    | transient =>
      by_cases hm : m = 0 <;> simp [retrySend, hb, hm]

/-- Claim C6: with three attempts allowed, a channel that fails transiently on
the first two attempts and succeeds on the third yields exactly one delivery
and exactly two recorded transient failures, the backoff delays before the two
retries are non-decreasing, and a permanent error on the first attempt is
never retried. -/
theorem retry_two_transient_then_ok (b : ℕ → SendOutcome) (base cap : ℕ)
    (h0 : b 0 = SendOutcome.transient) (h1 : b 1 = SendOutcome.transient)
    (h2 : b 2 = SendOutcome.ok) :
    (retrySend b base cap 3 0).delivered = 1
    ∧ (retrySend b base cap 3 0).transientFailures = 2
    ∧ (retrySend b base cap 3 0).delays = [min base cap, min (base * 2) cap]
    ∧ List.Chain' (· ≤ ·) (retrySend b base cap 3 0).delays
    ∧ (∀ b2 : ℕ → SendOutcome, b2 0 = SendOutcome.permanent →
        (retrySend b2 base cap 3 0).attempts = 1) := by
  have e : retrySend b base cap 3 0 =
      ⟨1, 2, [min base cap, min (base * 2) cap], 3⟩ := by
    simp [retrySend, h0, h1, h2, backoffDelay, pow_succ]
  refine ⟨by rw [e], by rw [e], by rw [e], ?_, fun b2 hb2 => ?_⟩
  · rw [e]
    have hle : base ≤ base * 2 := by omega
    simp [List.chain'_cons, min_le_min_right cap hle]
  · simp [retrySend, hb2]

/-- Witness for C6 with base delay 100 and cap 1000. -/
theorem retry_two_transient_then_ok_witness :
    twoTransientThenOk 0 = SendOutcome.transient
    ∧ twoTransientThenOk 1 = SendOutcome.transient
    ∧ twoTransientThenOk 2 = SendOutcome.ok
    ∧ (retrySend twoTransientThenOk 100 1000 3 0).delivered = 1
    ∧ (retrySend twoTransientThenOk 100 1000 3 0).transientFailures = 2
    ∧ (retrySend twoTransientThenOk 100 1000 3 0).delays
        = [min 100 1000, min (100 * 2) 1000]
    ∧ List.Chain' (· ≤ ·) (retrySend twoTransientThenOk 100 1000 3 0).delays
    ∧ (retrySend (fun _ => SendOutcome.permanent) 100 1000 3 0).attempts = 1 :=
  have h := retry_two_transient_then_ok twoTransientThenOk 100 1000 rfl rfl rfl
  ⟨rfl, rfl, rfl, h.1, h.2.1, h.2.2.1, h.2.2.2.1,
   h.2.2.2.2 (fun _ => SendOutcome.permanent) rfl⟩

/-- Claim C7: every configured channel is attempted (one retry result per
channel, each with at least one attempt) regardless of the outcomes of the
other channels, and the last-fired record is updated to the dispatch time
regardless of whether any delivery succeeded. -/
theorem dispatch_isolation_and_record (channels : List Channel)
    (base cap n : ℕ) (now : ℤ) (hn : 0 < n) :
    (dispatchAndRecord channels base cap n now).1.length = channels.length
    ∧ ((dispatchAndRecord channels base cap n now).1.all fun r =>
        decide (1 ≤ r.attempts)) = true
    ∧ (dispatchAndRecord channels base cap n now).2 = some now := by
  refine ⟨by simp [dispatchAndRecord], ?_, rfl⟩
  simp only [dispatchAndRecord, List.all_eq_true, List.mem_map,
    decide_eq_true_eq]
  rintro r ⟨ch, _, rfl⟩
  exact retrySend_attempts_pos ch.behavior base cap n 0 hn

/-- Witness for C7: email permanently failing does not stop the chat channel
from being attempted, and the fire is still recorded at time 7. -/
theorem dispatch_isolation_and_record_witness :
    (dispatchAndRecord [emailDown, chatUp] 100 1000 3 7).1.length
      = ([emailDown, chatUp] : List Channel).length
    ∧ ((dispatchAndRecord [emailDown, chatUp] 100 1000 3 7).1.all fun r =>
        decide (1 ≤ r.attempts)) = true
    ∧ (dispatchAndRecord [emailDown, chatUp] 100 1000 3 7).2 = some 7 :=
  dispatch_isolation_and_record [emailDown, chatUp] 100 1000 3 7 (by norm_num)

/-- Claim C8: an append that pushes the log size over the maximum for the
first time triggers exactly one rotation: the grown file becomes the newest
backup, the fresh active log holds only the header and is below the threshold,
an append that stays within the size limit performs no rotation, and no append
ever loses a record. -/
theorem rotation_preserves_history (sz : Observation → ℕ)
    (headerSize maxSize : ℕ) (st : HistoryState) (o : Observation)
    (hhdr : headerSize < maxSize)
    (hover : maxSize < logSize sz headerSize (st.active ++ [o])) :
    (appendObs sz headerSize maxSize st o).rotations = st.rotations + 1
    ∧ (appendObs sz headerSize maxSize st o).backups
        = st.backups ++ [st.active ++ [o]]
    ∧ logSize sz headerSize (appendObs sz headerSize maxSize st o).active
        < maxSize
    ∧ (∀ (st2 : HistoryState) (o2 : Observation),
        logSize sz headerSize (st2.active ++ [o2]) ≤ maxSize →
        (appendObs sz headerSize maxSize st2 o2).rotations = st2.rotations)
    ∧ (∀ (st2 : HistoryState) (o2 : Observation),
        allObservations (appendObs sz headerSize maxSize st2 o2)
          = allObservations st2 ++ [o2]) := by
  have happ : appendObs sz headerSize maxSize st o
      = ⟨[], st.backups ++ [st.active ++ [o]], st.rotations + 1⟩ := by
    simp [appendObs, hover]
  refine ⟨by rw [happ], by rw [happ], ?_, fun st2 o2 hle => ?_, fun st2 o2 => ?_⟩
  · rw [happ]
    simpa [logSize] using hhdr
  · simp [appendObs, Nat.not_lt.mpr hle]
  · by_cases hc : maxSize < logSize sz headerSize (st2.active ++ [o2])
    · simp [appendObs, hc, allObservations]
    · simp [appendObs, hc, allObservations]

/-- Witness for C8: two 5-byte records against a 1-byte header and a 10-byte
maximum: the second append rotates once and keeps both records in the backup. -/
theorem rotation_preserves_history_witness :
    (appendObs (fun _ => 5) 1 10 wState wObs2).rotations = wState.rotations + 1
    ∧ (appendObs (fun _ => 5) 1 10 wState wObs2).backups
        = wState.backups ++ [wState.active ++ [wObs2]]
    ∧ logSize (fun _ => 5) 1 (appendObs (fun _ => 5) 1 10 wState wObs2).active < 10
    ∧ (∀ (st2 : HistoryState) (o2 : Observation),
        logSize (fun _ => 5) 1 (st2.active ++ [o2]) ≤ 10 →
        (appendObs (fun _ => 5) 1 10 st2 o2).rotations = st2.rotations)
    ∧ (∀ (st2 : HistoryState) (o2 : Observation),
        allObservations (appendObs (fun _ => 5) 1 10 st2 o2)
          = allObservations st2 ++ [o2]) :=
  rotation_preserves_history (fun _ => 5) 1 10 wState wObs2 (by norm_num)
    (by norm_num [logSize, wState])

/-- Claim C9: calculatePercentageChange returns 0 whenever the previous value
is null, undefined, NaN or zero, and otherwise returns
((current - previous) / previous) * 100; it never divides by zero. -/
theorem calculatePercentageChange_total (current : ℚ) :
    calculatePercentageChange current JSNumber.jsNull = 0
    ∧ calculatePercentageChange current JSNumber.jsUndefined = 0
    ∧ calculatePercentageChange current JSNumber.nan = 0
    ∧ calculatePercentageChange current (JSNumber.num 0) = 0
    ∧ (∀ q : ℚ, q ≠ 0 →
        calculatePercentageChange current (JSNumber.num q)
          = (current - q) / q * 100) := by
  refine ⟨rfl, rfl, rfl, by simp [calculatePercentageChange], fun q hq => ?_⟩
  simp [calculatePercentageChange, hq]

/-- Witness for C9 at current 10 and previous 5: a 100 percent change. -/
theorem calculatePercentageChange_total_witness :
    calculatePercentageChange 10 JSNumber.jsNull = 0
    ∧ calculatePercentageChange 10 JSNumber.jsUndefined = 0
    ∧ calculatePercentageChange 10 JSNumber.nan = 0
    ∧ calculatePercentageChange 10 (JSNumber.num 0) = 0
    ∧ calculatePercentageChange 10 (JSNumber.num 5) = ((10 : ℚ) - 5) / 5 * 100 :=
  have h := calculatePercentageChange_total 10
  ⟨h.1, h.2.1, h.2.2.1, h.2.2.2.1, h.2.2.2.2 5 (by norm_num)⟩

/-- Claim C10: the active-alerts count of the Dashboard never exceeds the
total stock count, and each stock contributes at most one to the count even
when it breaches both thresholds at once. -/
theorem activeAlerts_le_length (stocks : List Stock) :
    activeAlerts stocks ≤ stocks.length
    ∧ (∀ (s : Stock) (rest : List Stock),
        activeAlerts (s :: rest) ≤ activeAlerts rest + 1) := by
  refine ⟨List.length_filter_le _ stocks, fun s rest => ?_⟩
  simp only [activeAlerts, List.filter_cons]
  split
  · simp
  · simp [Nat.le_succ_of_le]

end BursaTracker
